import Mathlib

/-!
Verification of the api-testing-demo repository's reusable logic against its
specification: the Slack notification formatter/sender (utils/slack-notify.js),
the recursive schema validator (tests/advanced/schema-validation.spec.js), the
endpoint registry path templates (api/endpoints.js) and the k6 load-script
setup phases. JavaScript values are embedded shallowly: numbers as ℚ, strings
as String, objects as association lists; `process.env` variables and fetch
outcomes are passed explicitly.
-/

/-! ### Slack notifier data model (utils/slack-notify.js) -/

/-- A test-run summary as consumed by `createSlackMessage`
(`{passed, failed, skipped, duration}`); counts are naturals, the duration in
seconds is a rational standing for the JS number. -/
structure TestResults where
  passed : Nat
  failed : Nat
  skipped : Nat
  duration : ℚ
deriving DecidableEq

/-- The `options` parameter of `createSlackMessage` (`{}` when absent):
`none` stands for a missing key. -/
structure SlackOptions where
  projectName : Option String
  branch : Option String
  runUrl : Option String
deriving DecidableEq

/-- The slice of `process.env` read by `createSlackMessage`; `none` stands for
an unset variable. -/
structure Env where
  GITHUB_REF_NAME : Option String
  GITHUB_SERVER_URL : Option String
  GITHUB_REPOSITORY : Option String
  GITHUB_RUN_ID : Option String
deriving DecidableEq

/-- A button element of an `actions` block (its fixed `text` is left implicit,
the `url` and `style` are kept). -/
structure SlackButton where
  text : String
  url : String
  style : String
deriving DecidableEq

/-- One entry of the `blocks` array built by `createSlackMessage`: a header
block, a section block of mrkdwn field texts, a context block of mrkdwn
elements, or an actions block of buttons. -/
inductive Block where
  | header (text : String)
  | fieldsSection (fields : List String)
  | context (elements : List String)
  | actions (buttons : List SlackButton)
deriving DecidableEq

/-- One attachment of the outbound payload: `{color, blocks}`. -/
structure Attachment where
  color : String
  blocks : List Block
deriving DecidableEq

/-- The outbound webhook payload `{attachments: [...]}`. -/
structure SlackMessage where
  attachments : List Attachment
deriving DecidableEq

/-- JavaScript truthiness of an optional string: `undefined` and `""` are
falsy, every other string is truthy. -/
def jsTruthy : Option String → Bool
  | none => false
  | some s => s ≠ ""

/-- JavaScript `a || d` for an optional string `a` and a constant default:
the string when truthy, otherwise the default. -/
def jsOrD (a : Option String) (d : String) : String :=
  match a with
  | some s => if s = "" then d else s
  | none => d

/-- Interpolation of a possibly-unset environment variable into a template
literal: JS renders `undefined` as the string `"undefined"`. -/
def envInterp : Option String → String
  | none => "undefined"
  | some s => s

/-- `Number.prototype.toFixed(1)` on the exact rational carried by the model:
round `10·q` half toward positive infinity, print one decimal digit. -/
def toFixed1 (q : ℚ) : String :=
  let m : ℤ := ⌊q * 10 + 1 / 2⌋
  if m < 0 then
    "-" ++ toString ((-m).toNat / 10) ++ "." ++ toString ((-m).toNat % 10)
  else
    toString (m.toNat / 10) ++ "." ++ toString (m.toNat % 10)

/-- slack-notify.js line 54: `total = passed + failed + skipped`. -/
def slackTotal (results : TestResults) : Nat :=
  results.passed + results.failed + results.skipped

/-- slack-notify.js line 55: `status = failed > 0 ? 'failure' : 'success'`. -/
def slackStatus (results : TestResults) : String :=
  if results.failed > 0 then "failure" else "success"

/-- slack-notify.js line 56: the header emoji. -/
def slackEmoji (results : TestResults) : String :=
  if results.failed > 0 then ":x:" else ":white_check_mark:"

/-- slack-notify.js line 57: the attachment color. -/
def slackColor (results : TestResults) : String :=
  if results.failed > 0 then "#dc3545" else "#28a745"

/-- slack-notify.js lines 61-63. The source reads
`options.runUrl || process.env.GITHUB_SERVER_URL ? ⟨template⟩ : null`;
by JS operator precedence the `||` is the ternary's condition, so whenever
either operand is truthy the result is the template string built from the
three environment variables (unset ones rendering as "undefined"), and the
value of `options.runUrl` itself is never returned. -/
def slackRunUrl (options : SlackOptions) (env : Env) : Option String :=
  if jsTruthy options.runUrl || jsTruthy env.GITHUB_SERVER_URL then
    some (envInterp env.GITHUB_SERVER_URL ++ "/" ++ envInterp env.GITHUB_REPOSITORY
      ++ "/actions/runs/" ++ envInterp env.GITHUB_RUN_ID)
  else
    none

/-- slack-notify.js line 108: the context element with total and pass rate;
the pass-rate slot is `(passed/total*100).toFixed(1)` guarded by `total > 0`,
and the literal number `0` (rendered "0") otherwise. -/
def slackContextText (results : TestResults) : String :=
  "總測試數: " ++ toString (slackTotal results) ++ " | 通過率: "
    ++ (if slackTotal results > 0 then
          toFixed1 ((results.passed : ℚ) / (slackTotal results : ℚ) * 100)
        else "0")
    ++ "%"

/-- slack-notify.js lines 65-131: the `blocks` array — header, section of six
mrkdwn fields, context line, and, when `runUrl` is truthy, an actions block
with one primary button. -/
def slackBlocks (results : TestResults) (options : SlackOptions) (env : Env) :
    List Block :=
  let branch := jsOrD options.branch (jsOrD env.GITHUB_REF_NAME "main")
  let projectName := jsOrD options.projectName "API Testing Demo"
  [Block.header (slackEmoji results ++ " " ++ projectName ++ " - 測試結果"),
   Block.fieldsSection [
     "*狀態:*\n" ++ (if slackStatus results = "success" then "通過 :tada:" else "失敗 :warning:"),
     "*分支:*\n`" ++ branch ++ "`",
     "*通過:*\n" ++ toString results.passed ++ " 個測試",
     "*失敗:*\n" ++ toString results.failed ++ " 個測試",
     "*跳過:*\n" ++ toString results.skipped ++ " 個測試",
     "*執行時間:*\n" ++ toFixed1 results.duration ++ " 秒"],
   Block.context [slackContextText results]]
  ++ (if jsTruthy (slackRunUrl options env) then
        [Block.actions [{ text := "查看詳細報告",
                          url := (slackRunUrl options env).getD "",
                          style := "primary" }]]
      else [])

/-- slack-notify.js lines 52-141: `createSlackMessage(results, options)` with
the environment made explicit; returns `{attachments: [{color, blocks}]}`. -/
def createSlackMessage (results : TestResults) (options : SlackOptions)
    (env : Env) : SlackMessage :=
  { attachments := [{ color := slackColor results,
                      blocks := slackBlocks results options env }] }

/-- The outcome of the `fetch` POST inside `sendSlackNotification`: either a
response with a status code and status text, or a transport error that makes
the promise reject (caught by the function's `try/catch`). -/
inductive FetchResult where
  | response (status : Nat) (statusText : String)
  | failure (errMsg : String)
deriving DecidableEq

/-- `Response.ok` of the fetch API: status in the range 200-299. -/
def responseOk (status : Nat) : Bool :=
  200 ≤ status && status < 300

/-- slack-notify.js lines 146-173: `sendSlackNotification(message)`. The
webhook address (`SLACK_WEBHOOK_URL`) and the fetch outcome are explicit
inputs; the result pairs the returned boolean with the number of network
calls performed. An unset (or empty, hence falsy) address returns `false`
without fetching; otherwise one POST happens and the function returns
`response.ok`, with a transport error caught and turned into `false`. -/
def sendSlackNotification (webhookUrl : Option String) (_message : SlackMessage)
    (fetchOutcome : FetchResult) : Bool × Nat :=
  if jsTruthy webhookUrl then
    match fetchOutcome with
    | FetchResult.response status _ => (responseOk status, 1)
    | FetchResult.failure _ => (false, 1)
  else
    (false, 0)

/-- The `stats` object of a Playwright JSON report as read by `main`
(slack-notify.js lines 188-193); `none` stands for a missing field. -/
structure Stats where
  expected : Option Nat
  unexpected : Option Nat
  skipped : Option Nat
  duration : Option ℚ
deriving DecidableEq

/-- slack-notify.js lines 188-193: the summary `main` builds from a parsed
JSON artifact — `data.stats?.expected || 0` etc., duration divided by 1000.
The outer `Option` is `data.stats?.` (a file without a `stats` object). -/
def resultsFromStats (stats : Option Stats) : TestResults :=
  { passed := (stats.bind Stats.expected).getD 0,
    failed := (stats.bind Stats.unexpected).getD 0,
    skipped := (stats.bind Stats.skipped).getD 0,
    duration := (stats.bind Stats.duration).getD 0 / 1000 }

/-! ### Lemmas and claim theorems for the notifier -/

/-- Evaluation lemma for `toFixed1` once the rounding floor is known. -/
theorem toFixed1_of_floor (q : ℚ) (m : ℤ) (h : ⌊q * 10 + 1 / 2⌋ = m)
    (hm : 0 ≤ m) :
    toFixed1 q = toString (m.toNat / 10) ++ "." ++ toString (m.toNat % 10) := by
  simp only [toFixed1]
  rw [h, if_neg (by omega)]

theorem toFixed1_123_over_10 : toFixed1 ((123 : ℚ) / 10) = "12.3" := by
  rw [toFixed1_of_floor ((123 : ℚ) / 10) 123 (by rw [Int.floor_eq_iff]; norm_num)
    (by norm_num)]
  decide

theorem toFixed1_250_over_3 : toFixed1 ((250 : ℚ) / 3) = "83.3" := by
  rw [toFixed1_of_floor ((250 : ℚ) / 3) 833 (by rw [Int.floor_eq_iff]; norm_num)
    (by norm_num)]
  decide

/-- C2: for the summary `{passed: 5, failed: 1, skipped: 0, duration: 12.3}`
(with empty options and environment, as when `main` invokes the formatter),
the payload's status discriminator is "failure", so its 狀態 field shows the
failed variant `失敗 :warning:`, the attachment color is the red `#dc3545`,
the header carries the failure emoji `:x:`, and the context line reads
`總測試數: 6 | 通過率: 83.3%` (5 of 6 tests). -/
theorem createSlackMessage_5_1_0 :
    slackStatus ⟨5, 1, 0, (123 : ℚ) / 10⟩ = "failure" ∧
    slackEmoji ⟨5, 1, 0, (123 : ℚ) / 10⟩ = ":x:" ∧
    slackColor ⟨5, 1, 0, (123 : ℚ) / 10⟩ = "#dc3545" ∧
    slackContextText ⟨5, 1, 0, (123 : ℚ) / 10⟩ = "總測試數: 6 | 通過率: 83.3%" ∧
    createSlackMessage ⟨5, 1, 0, (123 : ℚ) / 10⟩ ⟨none, none, none⟩
        ⟨none, none, none, none⟩ =
      { attachments := [
          { color := "#dc3545",
            blocks := [
              Block.header ":x: API Testing Demo - 測試結果",
              Block.fieldsSection [
                "*狀態:*\n失敗 :warning:",
                "*分支:*\n`main`",
                "*通過:*\n5 個測試",
                "*失敗:*\n1 個測試",
                "*跳過:*\n0 個測試",
                "*執行時間:*\n12.3 秒"],
              Block.context ["總測試數: 6 | 通過率: 83.3%"]] }] } := by
  have hctx : slackContextText ⟨5, 1, 0, (123 : ℚ) / 10⟩ =
      "總測試數: 6 | 通過率: 83.3%" := by
    simp only [slackContextText, slackTotal, Nat.cast_ofNat]
    norm_num [toFixed1_250_over_3]
    decide
  refine ⟨by decide, by decide, by decide, hctx, ?_⟩
  simp only [createSlackMessage, slackBlocks, slackStatus, slackEmoji, slackColor,
    slackRunUrl, jsTruthy, jsOrD, envInterp, hctx, toFixed1_123_over_10]
  decide

/-- C3: with zero total tests the context line is built from the guarded
branch of `total > 0 ? (passed/total*100).toFixed(1) : 0` — no division is
evaluated — and reports a pass rate of `0%`; this holds for every duration,
options and environment, and the context block is the third block of the
payload. -/
theorem slackContext_zero_total (d : ℚ) (options : SlackOptions) (env : Env) :
    slackContextText ⟨0, 0, 0, d⟩ = "總測試數: 0 | 通過率: 0%" ∧
    (slackBlocks ⟨0, 0, 0, d⟩ options env).get? 2 =
      some (Block.context ["總測試數: 0 | 通過率: 0%"]) := by
  have hctx : slackContextText ⟨0, 0, 0, d⟩ = "總測試數: 0 | 通過率: 0%" := by
    simp only [slackContextText, slackTotal]
    decide
  refine ⟨hctx, ?_⟩
  simp only [slackBlocks, hctx, List.cons_append, List.nil_append,
    List.get?_cons_succ, List.get?_cons_zero]

/-- C4: with the webhook address unset, `sendSlackNotification` returns
`false` and performs zero network calls, for every message and every would-be
fetch outcome. -/
theorem sendSlackNotification_unset (message : SlackMessage)
    (fetchOutcome : FetchResult) :
    sendSlackNotification none message fetchOutcome = (false, 0) := by
  rfl

/-- C5: `sendSlackNotification` is a total function of the fetch outcome (the
transport error of the source's `try/catch` is the `failure` case, returned,
never rethrown): it returns `true` exactly when the address is configured and
the response has a success (2xx) status, and it performs at most one network
call — no retry. -/
theorem sendSlackNotification_result (webhookUrl : Option String)
    (message : SlackMessage) (fetchOutcome : FetchResult) :
    ((sendSlackNotification webhookUrl message fetchOutcome).1 = true ↔
       jsTruthy webhookUrl = true ∧ ∃ status statusText,
         fetchOutcome = FetchResult.response status statusText ∧
         responseOk status = true) ∧
    (sendSlackNotification webhookUrl message fetchOutcome).2 ≤ 1 := by
  constructor
  · constructor
    · intro h
      simp only [sendSlackNotification] at h
      by_cases hw : jsTruthy webhookUrl
      · refine ⟨hw, ?_⟩
        rw [if_pos hw] at h
        cases fetchOutcome with
        | response status statusText => exact ⟨status, statusText, rfl, h⟩
        | failure errMsg => simp at h
      · rw [if_neg hw] at h
        simp at h
    · rintro ⟨hw, status, statusText, rfl, hok⟩
      simp only [sendSlackNotification, if_pos hw, hok]
  · simp only [sendSlackNotification]
    by_cases hw : jsTruthy webhookUrl
    · rw [if_pos hw]
      cases fetchOutcome <;> simp
    · rw [if_neg hw]
      simp

/-- C5 witness: a configured address together with a 200 response yields
`true` in one network call. -/
theorem sendSlackNotification_result_witness :
    (sendSlackNotification (some "https://hooks.slack.com/services/T/B/X")
        { attachments := [] } (FetchResult.response 200 "OK")).1 = true ∧
    (sendSlackNotification (some "https://hooks.slack.com/services/T/B/X")
        { attachments := [] } (FetchResult.response 200 "OK")).2 ≤ 1 := by
  have h := sendSlackNotification_result
    (some "https://hooks.slack.com/services/T/B/X") { attachments := [] }
    (FetchResult.response 200 "OK")
  exact ⟨h.1.mpr ⟨by decide, 200, "OK", rfl, by decide⟩, h.2⟩

/-- C8: the summary `main` builds from a parsed JSON artifact satisfies
`passed = stats.expected`, `failed = stats.unexpected`,
`skipped = stats.skipped` and `duration = stats.duration / 1000`, with every
missing field — and a missing `stats` object altogether — treated as 0. -/
theorem resultsFromStats_spec (e u s : Nat) (d : ℚ) :
    resultsFromStats (some ⟨some e, some u, some s, some d⟩) =
      ⟨e, u, s, d / 1000⟩ ∧
    resultsFromStats (some ⟨none, none, none, none⟩) = ⟨0, 0, 0, 0⟩ ∧
    resultsFromStats none = ⟨0, 0, 0, 0⟩ := by
  refine ⟨rfl, ?_, ?_⟩ <;> simp [resultsFromStats, TestResults.mk.injEq]

/-- C9 (code bug evaluation): with `options.runUrl` supplied and the GitHub
environment variables unset, lines 61-63 still take the env-derived template
(`||` binds tighter than `?:`), so the actions button's url is
`undefined/undefined/actions/runs/undefined`, not the supplied run URL. -/
theorem slackRunUrl_ignores_supplied_option :
    slackRunUrl ⟨none, none, some "https://example.com/run/1"⟩
        ⟨none, none, none, none⟩ =
      some "undefined/undefined/actions/runs/undefined" ∧
    (slackBlocks ⟨1, 0, 0, 1⟩ ⟨none, none, some "https://example.com/run/1"⟩
        ⟨none, none, none, none⟩).get? 3 =
      some (Block.actions [{ text := "查看詳細報告",
                             url := "undefined/undefined/actions/runs/undefined",
                             style := "primary" }]) ∧
    slackRunUrl ⟨none, none, some "https://example.com/run/1"⟩
        ⟨none, none, none, none⟩ ≠ some "https://example.com/run/1" := by
  refine ⟨rfl, ?_, by decide⟩
  rfl

/-- C10: the status, color and emoji depend only on whether `failed > 0`:
every summary with no failures reads success (green `#28a745`,
`:white_check_mark:`, status "success"), even when `passed = 0` and all tests
were skipped; every summary with a failure reads failure (red `#dc3545`,
`:x:`, status "failure") regardless of the other counts. -/
theorem slackStatus_only_failed (p s f : Nat) (d : ℚ) :
    (slackStatus ⟨p, 0, s, d⟩ = "success" ∧
     slackEmoji ⟨p, 0, s, d⟩ = ":white_check_mark:" ∧
     slackColor ⟨p, 0, s, d⟩ = "#28a745") ∧
    (0 < f →
      slackStatus ⟨p, f, s, d⟩ = "failure" ∧
      slackEmoji ⟨p, f, s, d⟩ = ":x:" ∧
      slackColor ⟨p, f, s, d⟩ = "#dc3545") := by
  constructor
  · refine ⟨?_, ?_, ?_⟩ <;> simp [slackStatus, slackEmoji, slackColor]
  · intro hf
    refine ⟨?_, ?_, ?_⟩ <;> simp [slackStatus, slackEmoji, slackColor, hf]

/-- C10 witness: the all-skipped summary `{passed: 0, failed: 0, skipped: 7}`
reads success, and one failure flips every indicator to failure. -/
theorem slackStatus_only_failed_witness :
    slackStatus ⟨0, 0, 7, 0⟩ = "success" ∧ slackStatus ⟨0, 1, 7, 0⟩ = "failure" := by
  exact ⟨(slackStatus_only_failed 0 7 1 0).1.1,
    ((slackStatus_only_failed 0 7 1 0).2 (by decide)).1⟩

/-! ### Schema validator (tests/advanced/schema-validation.spec.js) -/

/-- A JavaScript value as far as `typeof`, `Array.isArray` and property
lookup observe it: `undefined`, `null`, booleans, numbers, strings, arrays
and plain objects (an association list of own properties; prototype and
index/length properties of arrays are not modelled). -/
inductive JSValue where
  | vUndefined
  | vNull
  | vBool (b : Bool)
  | vNum (q : ℚ)
  | vStr (s : String)
  | vArr (elems : List JSValue)
  | vObj (fields : List (String × JSValue))

/-- JavaScript `typeof`: note `typeof null`, `typeof []` and `typeof {}` are
all "object". -/
def typeofJS : JSValue → String
  | JSValue.vUndefined => "undefined"
  | JSValue.vNull => "object"
  | JSValue.vBool _ => "boolean"
  | JSValue.vNum _ => "number"
  | JSValue.vStr _ => "string"
  | JSValue.vArr _ => "object"
  | JSValue.vObj _ => "object"

/-- `Array.isArray`. -/
def isArrayJS : JSValue → Bool
  | JSValue.vArr _ => true
  | _ => false

/-- `data[key]`: the own property of an object, `undefined` otherwise. -/
def getProp (v : JSValue) (key : String) : JSValue :=
  match v with
  | JSValue.vObj fields => (fields.lookup key).getD JSValue.vUndefined
  | _ => JSValue.vUndefined

/-- `expect(data).toHaveProperty(key)` as a boolean: the object has the own
property (an assertion failure is `false`). -/
def hasProp (v : JSValue) (key : String) : Bool :=
  match v with
  | JSValue.vObj fields => (fields.lookup key).isSome
  | _ => false

/-- A declared field type of a schema passed to `validateSchema`: either a
string (a `typeof` name, or the special string "array"), or a nested schema
object (its entries in order). -/
inductive FieldType where
  | ty (typeName : String)
  | nested (sub : List (String × FieldType))

/-- schema-validation.spec.js lines 13-27: `validateSchema(data, schema)` as
a boolean (`true` = every assertion passes, `false` = the first failing
`expect` raises). Entries are processed in order: a nested schema object
asserts presence, `typeof === 'object'` and recurs; the string "array"
asserts `Array.isArray(data[key])`; any other string asserts presence and
`typeof` equality. -/
def validateSchema (data : JSValue) : List (String × FieldType) → Bool
  | [] => true
  | (key, FieldType.nested sub) :: rest =>
      (hasProp data key && (typeofJS (getProp data key) == "object")
        && validateSchema (getProp data key) sub)
      && validateSchema data rest
  | (key, FieldType.ty t) :: rest =>
      (if t == "array" then isArrayJS (getProp data key)
       else hasProp data key && (typeofJS (getProp data key) == t))
      && validateSchema data rest

/-- The specification's acceptance condition, as stated: every field declared
with a primitive type name is present with matching `typeof`; every field
declared "array" holds an array value; every field declared as a nested
schema holds a value of `typeof` "object" that recursively satisfies the
nested schema. -/
inductive Satisfies : JSValue → List (String × FieldType) → Prop where
  | intro (data : JSValue) (schema : List (String × FieldType))
      (prim : ∀ key t, (key, FieldType.ty t) ∈ schema → t ≠ "array" →
        hasProp data key = true ∧ typeofJS (getProp data key) = t)
      (arr : ∀ key, (key, FieldType.ty "array") ∈ schema →
        isArrayJS (getProp data key) = true)
      (nestedTy : ∀ key sub, (key, FieldType.nested sub) ∈ schema →
        hasProp data key = true ∧ typeofJS (getProp data key) = "object")
      (nestedRec : ∀ key sub, (key, FieldType.nested sub) ∈ schema →
        Satisfies (getProp data key) sub) :
      Satisfies data schema

/-- What `Satisfies` requires of one declared field. -/
def EntrySatisfied (data : JSValue) (key : String) : FieldType → Prop
  | FieldType.ty t =>
      if t = "array" then isArrayJS (getProp data key) = true
      else hasProp data key = true ∧ typeofJS (getProp data key) = t
  | FieldType.nested sub =>
      hasProp data key = true ∧ typeofJS (getProp data key) = "object" ∧
        Satisfies (getProp data key) sub

theorem satisfies_nil (data : JSValue) : Satisfies data [] := by
  refine Satisfies.intro data [] ?_ ?_ ?_ ?_ <;> simp

theorem satisfies_cons {data : JSValue} {key : String} {ft : FieldType}
    {rest : List (String × FieldType)} :
    Satisfies data ((key, ft) :: rest) ↔
      EntrySatisfied data key ft ∧ Satisfies data rest := by
  constructor
  · rintro ⟨_, _, prim, arr, nTy, nRec⟩
    refine ⟨?_, ?_⟩
    · cases ft with
      | ty t =>
        by_cases ht : t = "array"
        · subst ht
          simp only [EntrySatisfied, if_pos rfl]
          exact arr key (List.mem_cons_self _ _)
        · simp only [EntrySatisfied, if_neg ht]
          exact prim key t (List.mem_cons_self _ _) ht
      | nested sub =>
        rcases nTy key sub (List.mem_cons_self _ _) with ⟨h1, h2⟩
        exact ⟨h1, h2, nRec key sub (List.mem_cons_self _ _)⟩
    · exact Satisfies.intro data rest
        (fun k t hm ht => prim k t (List.mem_cons_of_mem _ hm) ht)
        (fun k hm => arr k (List.mem_cons_of_mem _ hm))
        (fun k s hm => nTy k s (List.mem_cons_of_mem _ hm))
        (fun k s hm => nRec k s (List.mem_cons_of_mem _ hm))
  · rintro ⟨he, ⟨_, _, prim, arr, nTy, nRec⟩⟩
    refine Satisfies.intro data ((key, ft) :: rest) ?_ ?_ ?_ ?_
    · intro k t hm ht
      rcases List.mem_cons.mp hm with heq | hm'
      · rw [Prod.ext_iff] at heq
        obtain ⟨hk, hv⟩ := heq
        subst hk
        subst hv
        simpa [EntrySatisfied, if_neg ht] using he
      · exact prim k t hm' ht
    · intro k hm
      rcases List.mem_cons.mp hm with heq | hm'
      · rw [Prod.ext_iff] at heq
        obtain ⟨hk, hv⟩ := heq
        subst hk
        subst hv
        simpa [EntrySatisfied] using he
      · exact arr k hm'
    · intro k s hm
      rcases List.mem_cons.mp hm with heq | hm'
      · rw [Prod.ext_iff] at heq
        obtain ⟨hk, hv⟩ := heq
        subst hk
        subst hv
        exact ⟨he.1, he.2.1⟩
      · exact nTy k s hm'
    · intro k s hm
      rcases List.mem_cons.mp hm with heq | hm'
      · rw [Prod.ext_iff] at heq
        obtain ⟨hk, hv⟩ := heq
        subst hk
        subst hv
        exact he.2.2
      · exact nRec k s hm'

theorem entry_ty_iff (data : JSValue) (key t : String) :
    ((if t == "array" then isArrayJS (getProp data key)
      else hasProp data key && (typeofJS (getProp data key) == t)) = true) ↔
      EntrySatisfied data key (FieldType.ty t) := by
  by_cases ht : t = "array" <;>
    simp [EntrySatisfied, ht, Bool.and_eq_true, beq_iff_eq]

/-- C1: `validateSchema(data, schema)` succeeds (no assertion failure) if and
only if every field declared with a primitive type name is present on `data`
with matching `typeof`, every field declared "array" holds an array value
(element content irrelevant), and every field declared as a nested schema
holds a value of `typeof` "object" recursively satisfying it — so any absent
or type-mismatched declared field makes it fail. -/
theorem validateSchema_iff_satisfies :
    ∀ (schema : List (String × FieldType)) (data : JSValue),
      validateSchema data schema = true ↔ Satisfies data schema
  | [], data => by
    simp only [validateSchema]
    exact iff_of_true trivial (satisfies_nil data)
  | (key, FieldType.ty t) :: rest, data => by
    have hrest := validateSchema_iff_satisfies rest data
    simp only [validateSchema]
    rw [Bool.and_eq_true, satisfies_cons, hrest, entry_ty_iff]
  | (key, FieldType.nested sub) :: rest, data => by
    have hsub := validateSchema_iff_satisfies sub (getProp data key)
    have hrest := validateSchema_iff_satisfies rest data
    simp only [validateSchema]
    rw [Bool.and_eq_true, Bool.and_eq_true, Bool.and_eq_true, hsub, hrest,
      satisfies_cons]
    simp [EntrySatisfied, beq_iff_eq, and_assoc]
termination_by schema _ => sizeOf schema

/-! ### Endpoint registry path templates (api/endpoints.js) -/

namespace Endpoints

/-- jsonplaceholder `post: (id) => «/posts/id»`; the argument stands for the
already-stringified identifier the template literal interpolates. -/
def post (id : String) : String := "/posts/" ++ id

/-- jsonplaceholder and reqres `user: (id) => «/users/id»`. -/
def user (id : String) : String := "/users/" ++ id

/-- jsonplaceholder `postComments: (postId) => «/posts/postId/comments»`. -/
def postComments (postId : String) : String := "/posts/" ++ postId ++ "/comments"

/-- petstore `petById: (id) => «/pet/id»`. -/
def petById (id : String) : String := "/pet/" ++ id

/-- petstore `orderById: (id) => «/store/order/id»`. -/
def orderById (id : String) : String := "/store/order/" ++ id

/-- petstore `userByUsername: (username) => «/user/username»`. -/
def userByUsername (username : String) : String := "/user/" ++ username

end Endpoints

/-- Does `needle` match at the head of `hay`? -/
def headMatch : List Char → List Char → Bool
  | [], _ => true
  | _ :: _, [] => false
  | a :: ns, b :: hs => a == b && headMatch ns hs

/-- Number of positions of `hay` at which `needle` occurs (occurrences may
overlap). -/
def countOccur (needle : List Char) : List Char → Nat
  | [] => 0
  | b :: rest => (if headMatch needle (b :: rest) then 1 else 0) + countOccur needle rest

/-- Occurrence count of one string inside another. -/
def countOccurStr (needle hay : String) : Nat :=
  countOccur needle.data hay.data

/-- The characters the decimal string form of a JS number consists of:
digits, a minus sign, a decimal point. None of them occurs in the fixed text
of any path template. -/
def idChar (c : Char) : Bool :=
  c.isDigit || c == '-' || c == '.'

theorem headMatch_append_self (s r : List Char) : headMatch s (s ++ r) = true := by
  induction s with
  | nil => rfl
  | cons a ns ih => simp [headMatch, ih]

theorem countOccur_eq_zero_of_disjoint {s q : List Char} (hs : s ≠ [])
    (hsP : ∀ c ∈ s, idChar c = true) (hq : ∀ c ∈ q, idChar c = false) :
    countOccur s q = 0 := by
  induction q with
  | nil => rfl
  | cons b q' ih =>
    have hb : idChar b = false := hq b (List.mem_cons_self _ _)
    have hmatch : headMatch s (b :: q') = false := by
      cases s with
      | nil => exact absurd rfl hs
      | cons a ns =>
        have ha : idChar a = true := hsP a (List.mem_cons_self _ _)
        have hab : (a == b) = false := by
          rw [beq_eq_false_iff_ne]
          intro hab
          rw [hab, hb] at ha
          exact Bool.false_ne_true ha
        simp [headMatch, hab]
    simp only [countOccur, hmatch, if_neg Bool.false_ne_true, Nat.zero_add]
    exact ih (fun c hc => hq c (List.mem_cons_of_mem _ hc))

theorem headMatch_straddle_false :
    ∀ (s' s q : List Char), s'.length < s.length →
      (∀ c ∈ s, idChar c = true) → (∀ c ∈ q, idChar c = false) →
      headMatch s (s' ++ q) = false
  | [], s, q, hlen, hsP, hq => by
    cases s with
    | nil => simp at hlen
    | cons a ns =>
      cases q with
      | nil => rfl
      | cons b q' =>
        have ha : idChar a = true := hsP a (List.mem_cons_self _ _)
        have hb : idChar b = false := hq b (List.mem_cons_self _ _)
        have hab : (a == b) = false := by
          rw [beq_eq_false_iff_ne]
          intro hab
          rw [hab, hb] at ha
          exact Bool.false_ne_true ha
        simp [headMatch, hab]
  | b :: s'', s, q, hlen, hsP, hq => by
    cases s with
    | nil => simp at hlen
    | cons a ns =>
      have hlen' : s''.length < ns.length := by
        simpa using Nat.lt_of_succ_lt_succ (by simpa using hlen)
      have ih := headMatch_straddle_false s'' ns q hlen'
        (fun c hc => hsP c (List.mem_cons_of_mem _ hc)) hq
      simp [headMatch, ih]

theorem countOccur_tail_zero :
    ∀ (s' s q : List Char), s'.length < s.length →
      (∀ c ∈ s, idChar c = true) → (∀ c ∈ q, idChar c = false) →
      countOccur s (s' ++ q) = 0
  | [], s, q, hlen, hsP, hq => by
    have hs : s ≠ [] := by
      intro h
      rw [h] at hlen
      simp at hlen
    simpa using countOccur_eq_zero_of_disjoint hs hsP hq
  | b :: s'', s, q, hlen, hsP, hq => by
    have hmatch : headMatch s ((b :: s'') ++ q) = false :=
      headMatch_straddle_false (b :: s'') s q hlen hsP hq
    have ih := countOccur_tail_zero s'' s q
      (Nat.lt_of_le_of_lt (Nat.le_succ _) (by simpa using hlen)) hsP hq
    cases s with
    | nil => simp at hlen
    | cons a ns =>
      simp only [List.cons_append] at hmatch ⊢
      simp only [countOccur, hmatch, if_neg Bool.false_ne_true, Nat.zero_add]
      simpa using ih

theorem countOccur_sandwich :
    ∀ (p s q : List Char), s ≠ [] →
      (∀ c ∈ s, idChar c = true) →
      (∀ c ∈ p, idChar c = false) → (∀ c ∈ q, idChar c = false) →
      countOccur s (p ++ s ++ q) = 1
  | [], s, q, hs, hsP, _, hq => by
    cases s with
    | nil => exact absurd rfl hs
    | cons a ns =>
      have hmatch : headMatch (a :: ns) ((a :: ns) ++ q) = true :=
        headMatch_append_self (a :: ns) q
      have htail : countOccur (a :: ns) (ns ++ q) = 0 :=
        countOccur_tail_zero ns (a :: ns) q (by simp) hsP hq
      simp only [List.nil_append, List.cons_append] at hmatch ⊢
      simp only [countOccur, hmatch, if_pos rfl]
      simpa using htail
  | c :: p', s, q, hs, hsP, hp, hq => by
    cases s with
    | nil => exact absurd rfl hs
    | cons a ns =>
      have ha : idChar a = true := hsP a (List.mem_cons_self _ _)
      have hc : idChar c = false := hp c (List.mem_cons_self _ _)
      have hac : (a == c) = false := by
        rw [beq_eq_false_iff_ne]
        intro h
        rw [h, hc] at ha
        exact Bool.false_ne_true ha
      have ih := countOccur_sandwich p' (a :: ns) q hs hsP
        (fun x hx => hp x (List.mem_cons_of_mem _ hx)) hq
      simp only [List.cons_append, List.append_assoc] at ih ⊢
      simp only [countOccur, headMatch, hac, Bool.false_and,
        if_neg Bool.false_ne_true, Nat.zero_add]
      exact ih

/-- Occurrence count when the identifier sits at the very end of the path. -/
theorem countOccur_after (p s : List Char) (hs : s ≠ [])
    (hsP : ∀ c ∈ s, idChar c = true) (hp : ∀ c ∈ p, idChar c = false) :
    countOccur s (p ++ s) = 1 := by
  have h := countOccur_sandwich p s [] hs hsP hp (by simp)
  simpa using h

/-- C7 counterexample: the username "user" shares its characters with the
fixed text of the `userByUsername` template, and the produced path
`/user/user` contains it twice, not exactly once. -/
theorem userByUsername_identifier_twice :
    countOccurStr "user" (Endpoints.userByUsername "user") = 2 := by decide

/-- C7 (amended): for every identifier whose stringified form is a nonempty
string of digits, minus signs and decimal points — in particular the decimal
form of every numeric identifier — each identifier-taking path template
(`post`, `user`, `postComments`, `petById`, `orderById`, `userByUsername`)
produces a path containing the stringified identifier exactly once,
immediately after the template's fixed prefix (before the fixed suffix for
`postComments`); an identifier string overlapping the template's fixed text,
such as the username "user", can occur more often. -/
theorem endpoint_templates_once (s : String) (hne : s.data ≠ [])
    (hid : ∀ c ∈ s.data, idChar c = true) :
    countOccurStr s (Endpoints.post s) = 1 ∧
    countOccurStr s (Endpoints.user s) = 1 ∧
    countOccurStr s (Endpoints.postComments s) = 1 ∧
    countOccurStr s (Endpoints.petById s) = 1 ∧
    countOccurStr s (Endpoints.orderById s) = 1 ∧
    countOccurStr s (Endpoints.userByUsername s) = 1 := by
  refine ⟨?_, ?_, ?_, ?_, ?_, ?_⟩
  · rw [countOccurStr, Endpoints.post, String.data_append]
    exact countOccur_after _ _ hne hid (by decide)
  · rw [countOccurStr, Endpoints.user, String.data_append]
    exact countOccur_after _ _ hne hid (by decide)
  · rw [countOccurStr, Endpoints.postComments, String.data_append,
      String.data_append]
    exact countOccur_sandwich _ _ _ hne hid (by decide) (by decide)
  · rw [countOccurStr, Endpoints.petById, String.data_append]
    exact countOccur_after _ _ hne hid (by decide)
  · rw [countOccurStr, Endpoints.orderById, String.data_append]
    exact countOccur_after _ _ hne hid (by decide)
  · rw [countOccurStr, Endpoints.userByUsername, String.data_append]
    exact countOccur_after _ _ hne hid (by decide)

/-- C7 witness: the identifier "5" occurs exactly once in each produced
path. -/
theorem endpoint_templates_once_witness :
    countOccurStr "5" (Endpoints.post "5") = 1 ∧
    countOccurStr "5" (Endpoints.user "5") = 1 ∧
    countOccurStr "5" (Endpoints.postComments "5") = 1 ∧
    countOccurStr "5" (Endpoints.petById "5") = 1 ∧
    countOccurStr "5" (Endpoints.orderById "5") = 1 ∧
    countOccurStr "5" (Endpoints.userByUsername "5") = 1 :=
  endpoint_templates_once "5" (by decide) (by decide)

/-! ### k6 load-script setup phases -/

/-- The load-test script's `setup` (the k6 load-test source, lines 176-187 as
staged after api/endpoints.js): it logs, issues one GET liveness probe of
`/posts`, throws `API 不可用: <status>` when the probe's status is not 200,
and otherwise returns the start time. -/
def loadTestSetup (probeStatus : Nat) (startTime : Nat) : Except String Nat :=
  if probeStatus ≠ 200 then Except.error ("API 不可用: " ++ toString probeStatus)
  else Except.ok startTime

/-- HTTP requests the load-test `setup` issues before any stage runs. -/
def loadTestSetupLivenessChecks : Nat := 1

/-- k6/spike-test.js lines 141-163: `setup` logs the stage plan, issues one
GET liveness probe of `/posts`, throws `API 不可用` when the status is not
200, and otherwise returns the start time. -/
def spikeTestSetup (probeStatus : Nat) (startTime : Nat) : Except String Nat :=
  if probeStatus ≠ 200 then Except.error "API 不可用"
  else Except.ok startTime

/-- HTTP requests the spike-test `setup` issues before any stage runs. -/
def spikeTestSetupLivenessChecks : Nat := 1

/-- k6/stress-test.js lines 139-149: `setup` only logs the stage plan and
returns the start time; it issues no HTTP request and never throws. -/
def stressTestSetup (startTime : Nat) : Except String Nat :=
  Except.ok startTime

/-- HTTP requests the stress-test `setup` issues before any stage runs. -/
def stressTestSetupLivenessChecks : Nat := 0

/-- C6 counterexample: the stress-test load script's `setup` performs zero
liveness checks (not one) and succeeds unconditionally, so no unreachable
target can abort that run at setup. -/
theorem stressTestSetup_no_liveness :
    stressTestSetupLivenessChecks = 0 ∧ stressTestSetup 42 = Except.ok 42 :=
  ⟨rfl, rfl⟩

/-- C6 (amended): the load-test and spike-test scripts' `setup` performs one
liveness check before the run and raises an error — aborting the run before
any stage executes — exactly when the probe's status is not 200; the
stress-test script's `setup` performs no liveness check and always
succeeds. -/
theorem k6_setup_liveness (status t : Nat) :
    loadTestSetupLivenessChecks = 1 ∧
    spikeTestSetupLivenessChecks = 1 ∧
    (loadTestSetup status t = Except.ok t ↔ status = 200) ∧
    (spikeTestSetup status t = Except.ok t ↔ status = 200) ∧
    (status ≠ 200 →
      loadTestSetup status t = Except.error ("API 不可用: " ++ toString status)) ∧
    (status ≠ 200 → spikeTestSetup status t = Except.error "API 不可用") ∧
    stressTestSetupLivenessChecks = 0 ∧
    stressTestSetup t = Except.ok t := by
  refine ⟨rfl, rfl, ?_, ?_, ?_, ?_, rfl, rfl⟩ <;>
    by_cases h : status = 200 <;>
      simp [loadTestSetup, spikeTestSetup, h]

/-- C6 witness: a 503 probe aborts the load-test and spike-test runs at
setup, a 200 probe lets them start. -/
theorem k6_setup_liveness_witness :
    loadTestSetup 503 7 = Except.error "API 不可用: 503" ∧
    spikeTestSetup 503 7 = Except.error "API 不可用" ∧
    loadTestSetup 200 7 = Except.ok 7 := by
  have h503 := k6_setup_liveness 503 7
  have h200 := k6_setup_liveness 200 7
  refine ⟨?_, h503.2.2.2.2.2.1 (by decide), h200.2.2.1.mpr rfl⟩
  have := h503.2.2.2.2.1 (by decide)
  simpa using this
